import Mathlib

set_option maxRecDepth 4000

/-!
Verification development for the `Native` backend (`backend/app.py`).

The development shallowly embeds the usage-metering, prompt-budgeting,
completion-orchestration and persistence logic of the backend's `/api/chat`,
`/api/transcribe` and `/api/usage` handlers.  External collaborators
(Supabase, the Mistral API, the filesystem) are modelled as oracles: each
network call's outcome is a field of an environment record, and the handler
is a pure function from that environment to a response together with the
ordered list of externally visible effects (provider calls, row inserts,
token consumption) it performs.

Python strings are modelled as Lean `String`s; `str.strip` / `str.lower` /
`str.startswith` / slicing are modelled by the `pyStrip` / `pyLower` /
`pyStartsWith` / `pyTake` helpers below, which mirror the Python semantics
on the ASCII fragment the code manipulates.  Python `int` is modelled as
`Int` (`Nat` where the source value is a length and hence non-negative).
-/

/-- Whitespace characters stripped by Python's `str.strip()` (ASCII fragment). -/
def isPyWs (c : Char) : Bool :=
  c = ' ' || c = '\n' || c = '\t' || c = '\r'

/-- Model of Python `s.strip()`: drop leading and trailing whitespace. -/
def pyStrip (s : String) : String :=
  String.mk (((s.data.dropWhile isPyWs).reverse.dropWhile isPyWs).reverse)

/-- Model of Python `s.lower()` on the ASCII fragment. -/
def pyLower (s : String) : String :=
  String.mk (s.data.map (fun c => if 'A' ≤ c && c ≤ 'Z' then Char.ofNat (c.toNat + 32) else c))

/-- Model of Python `s.startswith(p)`. -/
def pyStartsWith (s p : String) : Bool :=
  p.data.isPrefixOf s.data

/-- Model of the Python slice `s[:n]` (first `n` characters). -/
def pyTake (s : String) (n : Nat) : String :=
  String.mk (s.data.take n)

/-- A chat message as sent to the completion provider: a role and a content
string.  (The backend also tolerates arbitrary JSON objects in the history;
that normalization layer is modelled separately on `Json` values below.
Inside the pipeline the content values are strings.) -/
structure Msg where
  role : String
  content : String
deriving DecidableEq, Repr

/-- The truncation marker appended by `_limit_text`:
`"\n...\n[contenu tronqué]"`. -/
def truncMarker : String := "\n...\n[contenu tronqué]"

/-- Embeds `_limit_text(s, max_chars)` (app.py lines 843-846): returns `s`
unchanged when it fits, else the first `max_chars` characters followed by a
visible truncation marker. -/
def limitText (s : String) (maxChars : Nat) : String :=
  if s.length ≤ maxChars then s else pyTake s maxChars ++ truncMarker

/-- Embeds `_content_len` for the string-content case (app.py lines 863-871)
and `_approx_messages_chars` (lines 873-879): total content characters. -/
def totalChars (msgs : List Msg) : Nat :=
  (msgs.map (fun m => m.content.length)).sum

/-- The 6000-character ceiling applied to each system turn inside
`_trim_history_to_budget` (lines 896-899). -/
def truncSystem (m : Msg) : Msg :=
  if m.content.length > 6000 then ⟨m.role, limitText m.content 6000⟩ else m

/-- The system turns of the input, each truncated to the 6000-char ceiling,
in their original order (lines 885-899). -/
def sysPart (msgs : List Msg) : List Msg :=
  (msgs.filter (fun m => m.role == "system")).map truncSystem

/-- The non-system turns of the input, in their original order. -/
def otherPart (msgs : List Msg) : List Msg :=
  msgs.filter (fun m => !(m.role == "system"))

/-- The greedy keep loop of `_trim_history_to_budget` (lines 905-920), on the
non-system turns listed most-recent first.  `noneKept` records whether
`kept_reversed` is still empty.  A turn is kept while its content fits the
remaining budget; the first turn that does not fit is truncated (copy with
`_limit_text`) only when nothing has been kept yet and more than 100
characters of budget remain, and the loop breaks either way. -/
def keepRev : List Msg → Int → Bool → List Msg
  | [], _, _ => []
  | m :: rest, remaining, noneKept =>
    if (m.content.length : Int) ≤ remaining then
      m :: keepRev rest (remaining - m.content.length) false
    else if noneKept then
      (if 100 < remaining then
        [⟨m.role, limitText m.content (max 100 remaining).toNat⟩]
      else [])
    else []

/-- Embeds `_trim_history_to_budget(msgs, budget)` (app.py lines 881-923):
non-positive budget or empty input is returned unchanged; system turns are
truncated to 6000 chars and always kept first; the remaining budget is
filled with non-system turns from most recent to oldest. -/
def trimHistory (msgs : List Msg) (budget : Int) : List Msg :=
  if budget ≤ 0 ∨ msgs = [] then msgs
  else
    let sys := sysPart msgs
    let remaining : Int := budget - (totalChars sys : Int)
    if remaining ≤ 0 then sys
    else sys ++ (keepRev (otherPart msgs).reverse remaining true).reverse

/-- A UTC calendar date, the part of `datetime.datetime.utcnow()` that the
period-key functions consume. -/
structure Date where
  year : Nat
  month : Nat
  day : Nat
deriving DecidableEq, Repr

/-- Gregorian leap year. -/
def isLeap (y : Nat) : Bool :=
  (y % 4 == 0 && y % 100 != 0) || y % 400 == 0

/-- Length of a month. -/
def monthLength (y m : Nat) : Nat :=
  if m = 2 then (if isLeap y then 29 else 28)
  else if m = 4 ∨ m = 6 ∨ m = 9 ∨ m = 11 then 30
  else 31

/-- Ordinal day of the year (1-based). -/
def dayOfYear (y m d : Nat) : Nat :=
  (((List.range (m - 1)).map (fun i => monthLength y (i + 1))).sum) + d

/-- Rata-die day number in the proleptic Gregorian calendar
(0001-01-01 := day 1, a Monday). -/
def rataDie (y m d : Nat) : Nat :=
  365 * (y - 1) + ((y - 1) / 4 + (y - 1) / 400 - (y - 1) / 100) + dayOfYear y m d

/-- ISO weekday: Monday = 1, ..., Sunday = 7 (as `datetime.isocalendar`). -/
def isoWeekday (y m d : Nat) : Nat :=
  (rataDie y m d - 1) % 7 + 1

/-- Number of ISO weeks in a year: 53 when Jan 1 falls on a Thursday, or on a
Wednesday of a leap year; 52 otherwise. -/
def weeksInIsoYear (y : Nat) : Nat :=
  let wd := isoWeekday y 1 1
  if wd = 4 ∨ (isLeap y ∧ wd = 3) then 53 else 52

/-- The (ISO year, ISO week) pair of `datetime.isocalendar()` for a date. -/
def isoYearWeek (y m d : Nat) : Nat × Nat :=
  let doy := dayOfYear y m d
  let wd := isoWeekday y m d
  let w0 := (doy + 10 - wd) / 7
  if w0 < 1 then (y - 1, weeksInIsoYear (y - 1))
  else if w0 > weeksInIsoYear y then (y + 1, 1)
  else (y, w0)

/-- Two-digit zero-padded rendering (Python `%m`, `{...:02d}`). -/
def pad2 (n : Nat) : String :=
  if n < 10 then "0" ++ Nat.repr n else Nat.repr n

/-- Embeds `_month_key` (app.py lines 188-190): `d.strftime("%Y-%m")`. -/
def monthKey (dt : Date) : String :=
  Nat.repr dt.year ++ "-" ++ pad2 dt.month

/-- Embeds `_iso_week_key` (app.py lines 193-196):
the f-string `f"{y}-W{w:02d}"` over `d.isocalendar()`. -/
def isoWeekKey (dt : Date) : String :=
  let yw := isoYearWeek dt.year dt.month dt.day
  Nat.repr yw.1 ++ "-W" ++ pad2 yw.2

/-- The period-key dispatch repeated at app.py lines 312, 359, 540, 605, 763
and 1412: `_month_key() if plan == "pro" else _iso_week_key()`. -/
def periodFor (plan : String) (dt : Date) : String :=
  if plan = "pro" then monthKey dt else isoWeekKey dt

/-- Embeds `_get_user_plan` (app.py lines 199-206): the stored plan string,
stripped and lowercased, must be `free` or `pro`; anything else — including a
store failure, modelled by `none` — degrades to `free`. -/
def getUserPlan (storePlan : Option String) : String :=
  match storePlan with
  | none => "free"
  | some p =>
    let q := pyLower (pyStrip p)
    if q = "free" ∨ q = "pro" then q else "free"

/-- Base plan caps (app.py lines 175-176). -/
def FREE_TOKEN_CAP : Int := 25000

def PRO_TOKEN_CAP : Int := 500000

def TOPUP_250K : Int := 250000

/-- Embeds `_get_token_cap` (app.py lines 209-232): try the
`get_token_cap` RPC with the new signature, then the old one; a non-null
result is clamped to be non-negative, a null result or a double failure
falls back to the plan's base cap.  `rpc1`/`rpc2` are the two RPC outcomes
(`.error` = raised, `.ok none` = returned null). -/
def getTokenCap (plan : String) (rpc1 rpc2 : Except Unit (Option Int)) : Int :=
  let base := if plan = "pro" then PRO_TOKEN_CAP else FREE_TOKEN_CAP
  match rpc1 with
  | .ok v => max 0 (v.getD base)
  | .error _ =>
    match rpc2 with
    | .ok v => max 0 (v.getD base)
    | .error _ => base

/-- Embeds `_get_tokens_used` (app.py lines 235-243): the period counter, 0
on a null result or a store failure (fail-open). -/
def getTokensUsed (rpc : Except Unit (Option Int)) : Int :=
  match rpc with
  | .ok v => v.getD 0
  | .error _ => 0

/-- Embeds `_add_tokens_used` (app.py lines 246-255): the `add_tokens` /
`add_tokens_week` RPC is attempted and any failure is swallowed by the bare
`except: return`, so the function returns `()` whether the ledger write
succeeds (`writeOk = true`) or fails (`writeOk = false`). -/
def addTokensUsed (writeOk : Bool) : Unit :=
  match writeOk with
  | true => ()
  | false => ()

/-- The success payload of the `/api/usage` endpoint. -/
structure UsageOut where
  month : String
  cap : Int
  used : Int
  remaining : Int
  plan : String
deriving DecidableEq, Repr

/-- Embeds the post-authentication body of the `usage` endpoint (app.py
lines 311-317): resolve plan, period key, cap and used, and report
`remaining = max(0, cap - used)`. -/
def usageSummary (storePlan : Option String) (rpc1 rpc2 usedRpc : Except Unit (Option Int))
    (dt : Date) : UsageOut :=
  let plan := getUserPlan storePlan
  let period := periodFor plan dt
  let cap := getTokenCap plan rpc1 rpc2
  let used := getTokensUsed usedRpc
  ⟨period, cap, used, max 0 (cap - used), plan⟩

/-- A conversation row as returned by the `conversations` table. -/
structure ConvRow where
  id : String
  userId : String
deriving DecidableEq, Repr

/-- An uploaded file: its byte size and the text `_extract_file_text`
produces for it (the PDF/OCR/decode internals are the Content Extractor
collaborator; its output is an oracle). -/
structure FileIn where
  name : String
  size : Nat
  text : String
deriving DecidableEq, Repr

/-- Failure modes of the Mistral chat-completions call as mapped at app.py
lines 1058-1076: an upstream HTTP error response, or a transport failure. -/
inductive PErr where
  | httpStatus (detail : String)
  | request (detail : String)
deriving DecidableEq, Repr

/-- The externally visible effects a handler performs, in order. -/
inductive Event where
  | providerCall (model : String) (msgs : List Msg)
  | sttCall (filename contentType : String)
  | translateCall (src : String)
  | chatAudioCall
  | insertConversation (title : String)
  | insertMessage (role content : String)
  | consume (tokens : Int)
deriving DecidableEq, Repr

/-- Events that are calls to the completion/transcription provider. -/
def isProviderEvent : Event → Bool
  | .providerCall _ _ => true
  | .sttCall _ _ => true
  | .translateCall _ => true
  | .chatAudioCall => true
  | _ => false

/-- The response of the `/api/chat` handler (HTTP status in `respStatus`). -/
inductive ChatResponse where
  | authRequired
  | invalidAuth
  | quotaExceeded (detail period plan : String)
  | payloadTooLarge
  | tooManyFiles
  | fileTooLarge (filename : String)
  | providerApiError (detail : String)
  | providerRequestFailed (detail : String)
  | ok (reply : String) (conversationId : Option String) (conversation : Option ConvRow)
deriving DecidableEq, Repr

/-- HTTP status attached to each `ChatResponse` by the handler. -/
def respStatus : ChatResponse → Nat
  | .authRequired => 401
  | .invalidAuth => 401
  | .quotaExceeded _ _ _ => 402
  | .payloadTooLarge => 413
  | .tooManyFiles => 413
  | .fileTooLarge _ => 413
  | .providerApiError _ => 502
  | .providerRequestFailed _ => 502
  | .ok _ _ _ => 200

/-- Outcome of the bearer-token check plus the Supabase user lookup. -/
inductive AuthOutcome where
  | authRequired
  | invalidAuth
  | ok (userId : String) (email : Option String)
deriving DecidableEq, Repr

/-- The auth preamble shared by every handler (e.g. app.py lines 753-760):
the `Authorization` header must be present and start (case-insensitively)
with `"bearer "`, then `_supabase_get_user_id` must succeed (`lookup`,
`none` = any exception). -/
def checkAuth (hdr : Option String) (lookup : Option (String × Option String)) : AuthOutcome :=
  match hdr with
  | none => .authRequired
  | some h =>
    if pyStartsWith (pyLower h) "bearer " then
      match lookup with
      | none => .invalidAuth
      | some (u, em) => .ok u em
    else .authRequired

/-- The environment of one `/api/chat` request: the request's form fields
together with the oracle outcomes of every external call the handler may
make.  `parsedHist` is the `json.loads` result of the `messages` field in
the well-formed case, as a list of role/content records (`none` models a
JSON parse failure or a non-list value; the general JSON shapes are treated
in the `Json`-level normalization model below).  The `max*` fields are the
guardrail configuration read through `_safe_int_env`. -/
structure ChatEnv where
  messagesRaw : String
  parsedHist : Option (List Msg)
  authHeader : Option String
  authLookup : Option (String × Option String)
  storePlan : Option String
  capRpc1 : Except Unit (Option Int)
  capRpc2 : Except Unit (Option Int)
  usedRpc : Except Unit (Option Int)
  now : Date
  persist : Option String
  deepSearch : Option String
  reason : Option String
  conversationId : Option String
  conversationTitle : Option String
  systemPromptForm : Option String
  files : Option (List FileIn)
  maxRawChars : Nat
  maxPromptChars : Int
  maxFiles : Nat
  maxFileBytes : Nat
  apiKeyEnv : Option String
  modelName : String
  envSystemPrompt : Option String
  providerResult : Except PErr (String × Option Int)
  convLookup : Except Unit (Option ConvRow)
  convInsert : Except Unit (Option ConvRow)
  consumeWriteOk : Bool
deriving Repr

/-- Embeds `_as_bool` (app.py lines 778-781). -/
def asBool (v : Option String) : Bool :=
  match v with
  | none => false
  | some s =>
    let t := pyLower (pyStrip s)
    t == "1" || t == "true" || t == "yes" || t == "on"

/-- The 402 detail string of the quota refusal (app.py lines 770-772). -/
def quotaDetail (cap : Int) (period : String) : String :=
  "Limite atteinte (" ++ Int.repr cap ++ " tokens) pour la période " ++ period ++ "."

/-- Embeds `_normalize_history` (app.py lines 741-748) for the string-record
case: a parse failure (or non-list JSON value) makes the raw text a single
user turn when it is non-blank. -/
def chatHistory0 (e : ChatEnv) : List Msg :=
  match e.parsedHist with
  | none => if pyStrip e.messagesRaw = "" then [] else [⟨"user", e.messagesRaw⟩]
  | some l => l

/-- Embeds the file-attachment step (app.py lines 980-1010): count and size
guardrails, then the extracted texts are joined and appended to the last
user turn, or added as a new user turn. -/
def filesStep (e : ChatEnv) (h0 : List Msg) : Except ChatResponse (List Msg) :=
  match e.files with
  | none => .ok h0
  | some fs =>
    if fs = [] then .ok h0
    else if fs.length > e.maxFiles then .error .tooManyFiles
    else
      match fs.find? (fun f => f.size > e.maxFileBytes) with
      | some f => .error (.fileTooLarge f.name)
      | none =>
        let block := String.intercalate "\n\n" (fs.map (fun f => f.text))
        match h0.getLast? with
        | some m =>
          if m.role = "user" then
            .ok (h0.dropLast ++ [⟨m.role, m.content ++ "\n\nVoici les fichiers fournis :\n" ++ block⟩])
          else .ok (h0 ++ [⟨"user", "Voici les fichiers fournis :\n" ++ block⟩])
        | none => .ok (h0 ++ [⟨"user", "Voici les fichiers fournis :\n" ++ block⟩])

/-- The hard-coded default system prompt of `_get_mistral_settings`
(app.py lines 50-53). -/
def defaultNativePrompt : String :=
  "Tu es Native AI, un assistant IA utile et bienveillant. R?ponds en fran?ais, de fa?on claire et concise."

/-- `_get_mistral_settings`'s system prompt: the `SYSTEM_PROMPT` env value
unless missing or blank (app.py lines 49-53). -/
def mistralSystemPrompt (envPrompt : Option String) : String :=
  match envPrompt with
  | none => defaultNativePrompt
  | some s => if pyStrip s = "" then defaultNativePrompt else s

/-- The effective system prompt (app.py lines 1014-1018): a non-blank
`system_prompt` form field overrides the default, stripped. -/
def effectivePrompt (e : ChatEnv) : String :=
  let base := mistralSystemPrompt e.envSystemPrompt
  match e.systemPromptForm with
  | none => base
  | some s => if pyStrip s = "" then base else pyStrip s

/-- The fixed Deep Search instruction paragraph (app.py lines 1025-1029). -/
def deepSearchInstr : String :=
  "Mode Deep Search: analyse de façon plus approfondie, structure ta réponse, et si nécessaire pose 1-2 questions de clarification avant de conclure. N'invente pas de sources externes."

/-- The fixed Reason instruction paragraph (app.py lines 1031-1034). -/
def reasonInstr : String :=
  "Mode Reason: donne une réponse structurée et ajoute uniquement les points clés du raisonnement (pas de chaîne de pensée détaillée)."

/-- The enabled mode instructions, in order (app.py lines 1023-1034). -/
def modeInstructions (e : ChatEnv) : List String :=
  (if asBool e.deepSearch then [deepSearchInstr] else [])
    ++ (if asBool e.reason then [reasonInstr] else [])

/-- Embeds app.py lines 1036-1038: when no history turn has non-blank
content, a non-blank raw `messages` string becomes the single user turn. -/
def chatHistory2 (e : ChatEnv) (h1 : List Msg) : List Msg :=
  if h1.any (fun m => pyStrip m.content != "") then h1
  else if pyStrip e.messagesRaw = "" then h1
  else [⟨"user", pyStrip e.messagesRaw⟩]

/-- The message sequence submitted to the provider (app.py lines 1040-1046):
system prompt, optional joined mode-instruction system turn, history, then
`_trim_history_to_budget` with `MAX_MISTRAL_PROMPT_CHARS`. -/
def chatMessages (e : ChatEnv) (h1 : List Msg) : List Msg :=
  let mm0 := ⟨"system", effectivePrompt e⟩ ::
    ((if (modeInstructions e).isEmpty then []
      else [⟨"system", String.intercalate "\n" (modeInstructions e)⟩])
      ++ chatHistory2 e h1)
  trimHistory mm0 e.maxPromptChars

/-- Embeds `_extract_last_user_message`'s scan (app.py lines 821-830) over
the reversed history: the first user turn with non-blank content, stripped. -/
def lastUserAux : List Msg → String
  | [] => ""
  | m :: rest =>
    if m.role = "user" ∧ pyStrip m.content ≠ "" then pyStrip m.content
    else lastUserAux rest

/-- `_extract_last_user_message` (app.py lines 821-830). -/
def lastUserMessage (h : List Msg) : String :=
  lastUserAux h.reverse

/-- Embeds `_ensure_conversation` (app.py lines 788-819): nothing without
persistence; with an existing (truthy) conversation id, the ownership lookup
must return a row belonging to the user — a missing row, a store failure or
an ownership mismatch all yield `(None, None)`; otherwise a new conversation
row is inserted with the given or default title. -/
def ensureConversation (e : ChatEnv) (userId : String) :
    Option String × Option ConvRow × List Event :=
  if !asBool e.persist then (none, none, [])
  else if (e.conversationId.getD "") ≠ "" then
    match e.convLookup with
    | .error _ => (none, none, [])
    | .ok none => (none, none, [])
    | .ok (some row) =>
      if row.userId = userId then (some row.id, some row, []) else (none, none, [])
  else
    let t0 := pyStrip (e.conversationTitle.getD "")
    let title := if t0 = "" then "New Conversation" else t0
    match e.convInsert with
    | .error _ => (none, none, [.insertConversation title])
    | .ok none => (none, none, [.insertConversation title])
    | .ok (some row) => (some row.id, some row, [.insertConversation title])

/-- The token cost consumed for a chat turn (app.py lines 1104-1111): the
provider's `usage.total_tokens` when present, else
`max(1, int(approx_chars / 4))` over the submitted messages plus the reply. -/
def chatCost (mm : List Msg) (reply : String) (usage : Option Int) : Int :=
  match usage with
  | some u => u
  | none => max 1 ((totalChars mm + reply.length) / 4 : Nat)

/-- The reply returned when `MISTRAL_API_KEY` is missing (app.py line 1021). -/
def missingKeyReply : String := "MISTRAL_API_KEY manquant dans .env (racine)."

/-- The tail of the chat handler after a successful provider call (app.py
lines 1080-1120): optional persistence (ownership-checked), then the
best-effort quota consume, then the success payload. -/
def chatAfterProvider (e : ChatEnv) (userId : String) (h1 : List Msg)
    (reply : String) (usage : Option Int) : ChatResponse × List Event :=
  let mm := chatMessages e h1
  let ec := ensureConversation e userId
  let convId := ec.1
  let convRow := ec.2.1
  let persistOn := asBool e.persist
  let msgEvs :=
    if persistOn ∧ convId.isSome then
      (let um := lastUserMessage (chatHistory2 e h1)
       (if um = "" then [] else [Event.insertMessage "user" um]))
        ++ [Event.insertMessage "assistant" reply]
    else []
  let tokens := chatCost mm reply usage
  let _ := addTokensUsed e.consumeWriteOk
  let resp := if persistOn ∧ convId.isSome then ChatResponse.ok reply convId convRow
              else ChatResponse.ok reply none none
  (resp, Event.providerCall e.modelName mm :: (ec.2.2 ++ msgEvs ++ [Event.consume tokens]))

/-- The body of the chat handler after authentication (app.py lines
762-1120): quota gate, payload guardrail, file step, missing-key early
return, provider call, then `chatAfterProvider`. -/
def chatAuthed (e : ChatEnv) (userId : String) : ChatResponse × List Event :=
  let plan := getUserPlan e.storePlan
  let period := periodFor plan e.now
  let cap := getTokenCap plan e.capRpc1 e.capRpc2
  let used := getTokensUsed e.usedRpc
  if cap ≤ used then
    (.quotaExceeded (quotaDetail cap period) period plan, [])
  else if e.messagesRaw.length > e.maxRawChars then (.payloadTooLarge, [])
  else
    match filesStep e (chatHistory0 e) with
    | .error r => (r, [])
    | .ok h1 =>
      if (e.apiKeyEnv.getD "") = "" then (.ok missingKeyReply none none, [])
      else
        match e.providerResult with
        | .error (.httpStatus d) =>
          (.providerApiError d, [.providerCall e.modelName (chatMessages e h1)])
        | .error (.request d) =>
          (.providerRequestFailed d, [.providerCall e.modelName (chatMessages e h1)])
        | .ok (reply, usage) => chatAfterProvider e userId h1 reply usage

/-- The `/api/chat` handler (app.py lines 722-1120) as a pure function from
the request environment to the response and the ordered effect trace. -/
def chat (e : ChatEnv) : ChatResponse × List Event :=
  match checkAuth e.authHeader e.authLookup with
  | .authRequired => (.authRequired, [])
  | .invalidAuth => (.invalidAuth, [])
  | .ok uid _ => chatAuthed e uid

/-- Plan of a chat request, as the handler computes it. -/
def chatPlan (e : ChatEnv) : String := getUserPlan e.storePlan

/-- Token cap of a chat request, as the handler computes it. -/
def chatCap (e : ChatEnv) : Int := getTokenCap (chatPlan e) e.capRpc1 e.capRpc2

/-- Tokens already used, as the handler computes them. -/
def chatUsed (e : ChatEnv) : Int := getTokensUsed e.usedRpc

/-- A structured error raised by the transcription helpers: they encode
`{"error": code, "status": st?, "detail": ...}` as JSON in a `RuntimeError`
message (app.py lines 1181-1206, 1248-1264, 1319-1330). -/
structure TErr where
  code : String
  status : Option Int
  detail : String
deriving DecidableEq, Repr

/-- The response of the `/api/transcribe` handler. -/
inductive TransResponse where
  | authRequired
  | invalidAuth
  | quotaExceeded (detail period plan : String)
  | missingKey
  | emptyAudio
  | audioTooLarge
  | conversionFailed (detail : String)
  | missingModel
  | terr (status : Int) (code detail : String)
  | ok (spoken text : String)
deriving DecidableEq, Repr

/-- The `RuntimeError` handler of `transcribe_audio` (app.py lines
1515-1527): a parsed payload with a non-empty code is surfaced with its
status clamped into 400-599 (else 502); otherwise a generic 502
`mistral_api_error`. -/
def terrResponse (t : TErr) : TransResponse :=
  if t.code ≠ "" then
    let st := t.status.getD 502
    .terr (if 400 ≤ st ∧ st ≤ 599 then st else 502) t.code t.detail
  else .terr 502 "mistral_api_error" t.detail

/-- Model of `os.path.splitext(s)[1]`: the extension starting at the last
dot, empty when the name has no dot or only leading dots. -/
def pyExt (s : String) : String :=
  let cs := s.data
  match cs.reverse.findIdx? (fun c => c = '.') with
  | none => ""
  | some k =>
    let i := cs.length - 1 - k
    if (cs.take i).all (fun c => c = '.') then "" else String.mk (cs.drop i)

/-- Embeds `_looks_like_supported_audio` (app.py lines 1140-1145). -/
def looksLikeSupportedAudio (filename contentType : Option String) : Bool :=
  let ext := pyLower (pyExt (filename.getD ""))
  if ext == ".mp3" || ext == ".wav" then true
  else
    let ct := pyLower (contentType.getD "")
    ct == "audio/mpeg" || ct == "audio/mp3" || ct == "audio/wav" || ct == "audio/x-wav"

/-- Embeds `_should_use_transcriptions_endpoint` (app.py lines 1148-1155). -/
def shouldUseTranscriptions (model : String) : Bool :=
  let m := pyLower (pyStrip model)
  if m == "" then false else pyStartsWith m "voxtral-mini"

/-- Model of `s.split(";", 1)[0]`. -/
def beforeSemicolon (s : String) : String :=
  String.mk (s.data.takeWhile (fun c => c ≠ ';'))

/-- The environment of one `/api/transcribe` request; as for `ChatEnv`,
every external call's outcome is an oracle field.  `sttResult` is the
(already stripped) text and `usage.total_tokens` of
`_mistral_audio_transcriptions`; `translateResult` the text returned by
`_translate_to_french`; `chatAudioResult` the `(spoken, fr, usage)` of
`_mistral_chat_audio_to_json`; `convertResult` the output size of
`_convert_audio_to_wav`. -/
structure TransEnv where
  authHeader : Option String
  authLookup : Option (String × Option String)
  storePlan : Option String
  capRpc1 : Except Unit (Option Int)
  capRpc2 : Except Unit (Option Int)
  usedRpc : Except Unit (Option Int)
  now : Date
  apiKeyEnv : Option String
  fileSize : Nat
  filename : Option String
  contentType : Option String
  convertResult : Except String Nat
  transcribeModel : String
  endpointModeRaw : String
  sttResult : Except TErr (String × Option Int)
  translateResult : Except TErr String
  chatAudioResult : Except TErr (String × String × Option Int)
  consumeWriteOk : Bool
deriving Repr

/-- The 10 MiB audio guardrail (app.py lines 1435, 1456). -/
def audioSizeLimit : Nat := 10 * 1024 * 1024

/-- The filename/content-type normalization of the transcriptions path
(app.py lines 1481-1494). -/
def sttFileMeta (t : TransEnv) (converted : Bool) : String × String :=
  let filename0 :=
    match t.filename with
    | some f => if f = "" then (if converted then "audio.wav" else "audio") else f
    | none => if converted then "audio.wav" else "audio"
  if converted then ("audio.wav", "audio/wav")
  else
    let ctRaw := pyLower (pyStrip (beforeSemicolon (t.contentType.getD "")))
    let ext := pyLower (pyExt filename0)
    (filename0,
      if ext = ".wav" then "audio/wav"
      else if ext = ".mp3" then "audio/mpeg"
      else if ctRaw = "" then "application/octet-stream" else ctRaw)

/-- The body of `transcribe_audio` after authentication (app.py lines
1411-1538): quota gate (same refusal payload as chat), missing-key check,
empty/oversized audio guardrails, optional wav conversion, model and
endpoint selection, one or two provider calls, then the best-effort
consume. -/
def transcribeAuthed (t : TransEnv) : TransResponse × List Event :=
  let plan := getUserPlan t.storePlan
  let period := periodFor plan t.now
  let cap := getTokenCap plan t.capRpc1 t.capRpc2
  let used := getTokensUsed t.usedRpc
  if cap ≤ used then
    (.quotaExceeded (quotaDetail cap period) period plan, [])
  else if (t.apiKeyEnv.getD "") = "" then (.missingKey, [])
  else if t.fileSize = 0 then (.emptyAudio, [])
  else if t.fileSize > audioSizeLimit then (.audioTooLarge, [])
  else
    let conv : Except TransResponse Bool :=
      if looksLikeSupportedAudio t.filename t.contentType then .ok false
      else
        match t.convertResult with
        | .error d => .error (.conversionFailed d)
        | .ok n => if n > audioSizeLimit then .error .audioTooLarge else .ok true
    match conv with
    | .error r => (r, [])
    | .ok converted =>
      if pyStrip t.transcribeModel = "" then (.missingModel, [])
      else
        let model := pyStrip t.transcribeModel
        let forced :=
          let f := pyLower (pyStrip t.endpointModeRaw)
          if f = "" then "auto" else f
        let useTx :=
          if forced = "transcriptions" then true
          else if forced = "chat" then false
          else shouldUseTranscriptions model
        if useTx then
          let fm := sttFileMeta t converted
          match t.sttResult with
          | .error err => (terrResponse err, [.sttCall fm.1 fm.2])
          | .ok (spoken, usage) =>
            match t.translateResult with
            | .error err => (terrResponse err, [.sttCall fm.1 fm.2, .translateCall spoken])
            | .ok fr =>
              let tokens : Int :=
                match usage with
                | some u => u
                | none => max 1 (((if fr = "" then spoken else fr).length) / 4 : Nat)
              let _ := addTokensUsed t.consumeWriteOk
              (.ok spoken fr, [.sttCall fm.1 fm.2, .translateCall spoken, .consume tokens])
        else
          match t.chatAudioResult with
          | .error err => (terrResponse err, [.chatAudioCall])
          | .ok (s, fr0, usage) =>
            let spoken := pyStrip s
            let fr := pyStrip fr0
            let tokens : Int :=
              match usage with
              | some u => u
              | none => max 1 (((if fr = "" then spoken else fr).length) / 4 : Nat)
            let _ := addTokensUsed t.consumeWriteOk
            (.ok spoken fr, [.chatAudioCall, .consume tokens])

/-- The `/api/transcribe` handler (app.py lines 1389-1538). -/
def transcribe (t : TransEnv) : TransResponse × List Event :=
  match checkAuth t.authHeader t.authLookup with
  | .authRequired => (.authRequired, [])
  | .invalidAuth => (.invalidAuth, [])
  | .ok _ _ => transcribeAuthed t

/-- Plan of a transcription request, as the handler computes it. -/
def transPlan (t : TransEnv) : String := getUserPlan t.storePlan

/-- Token cap of a transcription request, as the handler computes it. -/
def transCap (t : TransEnv) : Int := getTokenCap (transPlan t) t.capRpc1 t.capRpc2

/-- Tokens already used, as the transcription handler computes them. -/
def transUsed (t : TransEnv) : Int := getTokensUsed t.usedRpc

/-- JSON values, as produced by `json.loads` (numbers restricted to the
integers that occur in histories). -/
inductive Json where
  | null
  | bool (b : Bool)
  | num (n : Int)
  | str (s : String)
  | arr (elems : List Json)
  | obj (fields : List (String × Json))

/-- `dict.get` on a parsed JSON object (assoc-list lookup). -/
def jGet : List (String × Json) → String → Option Json
  | [], _ => none
  | (k', v) :: rest, k => if k' = k then some v else jGet rest k

/-- `m.get(k)` when `m` is a parsed JSON value: `None` unless a dict. -/
def objGet (j : Json) (k : String) : Option Json :=
  match j with
  | .obj kvs => jGet kvs k
  | _ => none

/-- `isinstance(m, dict)`. -/
def isObjJ (j : Json) : Bool :=
  match j with
  | .obj _ => true
  | _ => false

/-- Python `repr` of a parsed JSON value (used by `str` on non-strings). -/
def pyRepr : Json → String
  | .null => "None"
  | .bool true => "True"
  | .bool false => "False"
  | .num n => Int.repr n
  | .str s => "'" ++ s ++ "'"
  | .arr xs => "[" ++ String.intercalate ", " (xs.attach.map (fun x => pyRepr x.1)) ++ "]"
  | .obj kvs =>
    "\x7b" ++ String.intercalate ", "
      (kvs.attach.map (fun x => "'" ++ x.1.1 ++ "': " ++ pyRepr x.1.2)) ++ "\x7d"
decreasing_by
  · have h := List.sizeOf_lt_of_mem x.2
    simp only [Json.arr.sizeOf_spec]
    omega
  · have h1 := List.sizeOf_lt_of_mem x.2
    have h2 : sizeOf x.1.2 < sizeOf x.1 := by
      obtain ⟨⟨a, b⟩, hx⟩ := x
      simp
    simp only [Json.obj.sizeOf_spec]
    omega

/-- Python `str` of a parsed JSON value: the string itself for strings,
`repr` otherwise. -/
def pyStr (j : Json) : String :=
  match j with
  | .str s => s
  | _ => pyRepr j

/-- The single-user-turn dict `{"role": "user", "content": s}`. -/
def userTurnJ (s : String) : Json :=
  .obj [("role", .str "user"), ("content", .str s)]

/-- Embeds `_normalize_history` (app.py lines 741-748) over general JSON: a
parse failure (`none`) or a non-list value turns non-blank raw text into a
single user turn; a list keeps exactly its dict elements. -/
def normalizeHistoryJ (parsed : Option Json) (raw : String) : List Json :=
  match parsed with
  | some (.arr xs) => xs.filter isObjJ
  | some _ => if pyStrip raw = "" then [] else [userTurnJ raw]
  | none => if pyStrip raw = "" then [] else [userTurnJ raw]

/-- `str(m.get("content", "")).strip()` is non-empty (app.py line 1036). -/
def contentNonBlankJ (m : Json) : Bool :=
  pyStrip (pyStr ((objGet m "content").getD (.str ""))) != ""

/-- The history the chat pipeline submits (for a request without file
attachments): `_normalize_history` followed by the raw-text fallback of
app.py lines 1036-1038. -/
def chatHistoryJ (parsed : Option Json) (raw : String) : List Json :=
  if (normalizeHistoryJ parsed raw).any contentNonBlankJ then normalizeHistoryJ parsed raw
  else if pyStrip raw = "" then normalizeHistoryJ parsed raw
  else [userTurnJ (pyStrip raw)]

/-- Stated from the spec's words, for comparison with the code: `parsed` is
"an ordered sequence of role/content records" when it is a JSON list all of
whose elements are objects with string `role` and `content` fields. -/
def specParsesAsRecords (parsed : Option Json) : Bool :=
  match parsed with
  | some (.arr xs) =>
    xs.all (fun j =>
      match objGet j "role", objGet j "content" with
      | some (.str _), some (.str _) => true
      | _, _ => false)
  | _ => false

/-- Whether a history turn carries the raw text (or its stripped form) as
its content — the shape `_normalize_history`'s fallback produces. -/
def hasRawContent (raw : String) (m : Json) : Bool :=
  match objGet m "content" with
  | some (.str c) => c == raw || c == pyStrip raw
  | _ => false

/-- The fallback situations in which the pipeline substitutes the raw text:
a JSON parse failure, a non-list JSON value, or a list whose dict elements
all have blank content. -/
def fallbackInput (parsed : Option Json) : Bool :=
  match parsed with
  | none => true
  | some (.arr xs) => (xs.filter isObjJ).all (fun m => !contentNonBlankJ m)
  | some _ => true

/-- Stated from the spec's words, for comparison with the code: the spec's
estimator is `max(1, round(character_count / 4))` with Python's `round`
(half-to-even). -/
def specRound4 (c : Nat) : Nat :=
  let q := c / 4
  let r := c % 4
  if r = 0 ∨ r = 1 then q
  else if r = 3 then q + 1
  else if q % 2 = 0 then q else q + 1

/-- The spec's token-cost fallback `max(1, round(character_count / 4))`. -/
def specRoundCost (chars : Nat) : Int :=
  max 1 (specRound4 chars : Int)

/-- A string of `n` copies of `a`. -/
def aStr (n : Nat) : String :=
  String.mk (List.replicate n 'a')

/-- A happy-path `/api/chat` environment: valid bearer token, Free plan with
cap 100 and 10 tokens used, raw text `"ab"` that fails to parse as JSON, a
1-character system-prompt override, provider reply `"abc"` with no usage
reported. -/
def baseChatEnv : ChatEnv where
  messagesRaw := "ab"
  parsedHist := none
  authHeader := some "Bearer tok"
  authLookup := some ("u1", none)
  storePlan := some "free"
  capRpc1 := .ok (some 100)
  capRpc2 := .ok none
  usedRpc := .ok (some 10)
  now := ⟨2026, 10, 12⟩
  persist := none
  deepSearch := none
  reason := none
  conversationId := none
  conversationTitle := none
  systemPromptForm := some "x"
  files := none
  maxRawChars := 250000
  maxPromptChars := 60000
  maxFiles := 6
  maxFileBytes := 8000000
  apiKeyEnv := some "k"
  modelName := "m"
  envSystemPrompt := some "unused"
  providerResult := .ok ("abc", none)
  convLookup := .ok none
  convInsert := .ok none
  consumeWriteOk := true

/-- `baseChatEnv` with the weekly counter already at the cap. -/
def quotaChatEnv : ChatEnv :=
  { baseChatEnv with usedRpc := .ok (some 100) }

/-- A `/api/transcribe` environment with the weekly counter at the cap. -/
def quotaTransEnv : TransEnv where
  authHeader := some "Bearer tok"
  authLookup := some ("u1", none)
  storePlan := some "free"
  capRpc1 := .ok (some 100)
  capRpc2 := .ok none
  usedRpc := .ok (some 150)
  now := ⟨2026, 10, 12⟩
  apiKeyEnv := some "k"
  fileSize := 4
  filename := some "a.wav"
  contentType := some "audio/wav"
  convertResult := .ok 4
  transcribeModel := "voxtral-small-2507"
  endpointModeRaw := "auto"
  sttResult := .ok ("hi", some 3)
  translateResult := .ok "salut"
  chatAudioResult := .ok ("hi", "salut", some 3)
  consumeWriteOk := true

/-- `baseChatEnv` with a provider-reported usage count and persistence
requested for a conversation owned by someone else. -/
def c9ChatEnv : ChatEnv :=
  { baseChatEnv with
      persist := some "1"
      conversationId := some "c77"
      providerResult := .ok ("abc", some 50)
      convLookup := .ok (some ⟨"c77", "otherUser"⟩) }

/-- `baseChatEnv` with the completion API key unset. -/
def c10ChatEnv : ChatEnv :=
  { baseChatEnv with apiKeyEnv := none }

/-- `baseChatEnv` with a provider-reported usage count. -/
def c3ChatEnv : ChatEnv :=
  { baseChatEnv with providerResult := .ok ("abc", some 50) }

/-- The raw `messages` string `[{"role": "user", "content": "hi"}, 42]` and
its `json.loads` image: a list holding one well-formed record and one
non-record element. -/
def c8raw : String := "[\x7b\"role\": \"user\", \"content\": \"hi\"\x7d, 42]"

/-- `json.loads(c8raw)`. -/
def c8parsed : Option Json :=
  some (.arr [.obj [("role", .str "user"), ("content", .str "hi")], .num 42])

theorem totalChars_append (a b : List Msg) :
    totalChars (a ++ b) = totalChars a + totalChars b := by
  simp [totalChars]

theorem totalChars_reverse (l : List Msg) : totalChars l.reverse = totalChars l := by
  simp [totalChars, List.sum_reverse]

theorem pyTake_length (s : String) (n : Nat) : (pyTake s n).length = min n s.length := by
  show (s.data.take n).length = min n s.data.length
  exact List.length_take n s.data

theorem limitText_length_gt {s : String} {n : Nat} (h : n < s.length) :
    (limitText s n).length = n + truncMarker.length := by
  rw [limitText, if_neg (by omega)]
  rw [String.length_append, pyTake_length]
  omega

theorem keepRev_total_false (l : List Msg) : ∀ (r : Int), 0 ≤ r →
    (totalChars (keepRev l r false) : Int) ≤ r := by
  induction l with
  | nil => intro r hr; simpa [keepRev, totalChars] using hr
  | cons m rest ih =>
    intro r hr
    rw [keepRev]
    split
    · next hfit =>
      have h2 := ih (r - m.content.length) (by omega)
      simp only [totalChars, List.map_cons, List.sum_cons] at *
      push_cast at *
      omega
    · next hfit =>
      simpa [totalChars] using hr

theorem keepRev_total_true (l : List Msg) : ∀ (r : Int), 0 ≤ r →
    (totalChars (keepRev l r true) : Int) ≤ r + truncMarker.length := by
  cases l with
  | nil =>
    intro r hr
    simp only [keepRev, totalChars, List.map_nil, List.sum_nil]
    omega
  | cons m rest =>
    intro r hr
    rw [keepRev]
    split
    · next hfit =>
      have h2 := keepRev_total_false rest (r - m.content.length) (by omega)
      simp only [totalChars, List.map_cons, List.sum_cons] at *
      push_cast at *
      omega
    · next hfit =>
      split_ifs with htt h100
      · have hlen : (max 100 r).toNat < m.content.length := by omega
        simp only [totalChars, List.map_cons, List.map_nil, List.sum_cons, List.sum_nil]
        rw [limitText_length_gt hlen]
        push_cast
        omega
      · simp only [totalChars, List.map_nil, List.sum_nil]
        omega
      · simp only [totalChars, List.map_nil, List.sum_nil]
        omega

theorem keepRev_shape_false (l : List Msg) : ∀ (r : Int), ∃ k, keepRev l r false = l.take k := by
  induction l with
  | nil => intro r; exact ⟨0, rfl⟩
  | cons m rest ih =>
    intro r
    rw [keepRev]
    split
    · next hfit =>
      obtain ⟨k, hk⟩ := ih (r - m.content.length)
      exact ⟨k + 1, by rw [hk]; rfl⟩
    · next hfit =>
      refine ⟨0, ?_⟩
      split_ifs <;> simp_all

theorem keepRev_shape_true (l : List Msg) (r : Int) :
    (∃ k, keepRev l r true = l.take k) ∨
    (∃ m rest n, l = m :: rest ∧ keepRev l r true = [⟨m.role, limitText m.content n⟩]) := by
  cases l with
  | nil => exact .inl ⟨0, rfl⟩
  | cons m rest =>
    rw [keepRev]
    split
    · next hfit =>
      obtain ⟨k, hk⟩ := keepRev_shape_false rest (r - m.content.length)
      exact .inl ⟨k + 1, by rw [hk]; rfl⟩
    · next hfit =>
      by_cases h100 : (100 : Int) < r
      · refine .inr ⟨m, rest, (max 100 r).toNat, rfl, ?_⟩
        split_ifs <;> simp_all
      · refine .inl ⟨0, ?_⟩
        split_ifs <;> simp_all

theorem trimHistory_unfold (msgs : List Msg) (budget : Int) (hb : 0 < budget)
    (hs : (totalChars (sysPart msgs) : Int) < budget) :
    trimHistory msgs budget =
      sysPart msgs ++
        (keepRev (otherPart msgs).reverse (budget - (totalChars (sysPart msgs) : Int)) true).reverse := by
  cases msgs with
  | nil => simp [trimHistory, sysPart, otherPart, keepRev]
  | cons m rest =>
    rw [trimHistory]
    rw [if_neg (by push_neg; exact ⟨by omega, by simp⟩)]
    simp only
    rw [if_neg (by omega)]

theorem kept_roles_nonsystem {msgs : List Msg} {rem : Int} {m : Msg}
    (hm : m ∈ (keepRev (otherPart msgs).reverse rem true).reverse) : m.role ≠ "system" := by
  rcases keepRev_shape_true (otherPart msgs).reverse rem with ⟨k, hk⟩ | ⟨m0, rest0, n0, hl, hk⟩
  · rw [hk] at hm
    have hm2 : m ∈ (otherPart msgs).reverse.take k := by simpa using hm
    have hm3 : m ∈ otherPart msgs := by
      have := List.take_subset k (otherPart msgs).reverse hm2
      simpa using this
    have hrole := List.of_mem_filter hm3
    simpa using hrole
  · rw [hk] at hm
    simp only [List.reverse_singleton, List.mem_singleton] at hm
    have hmem : m0 ∈ (otherPart msgs).reverse := by
      rw [hl]; exact List.mem_cons_self _ _
    have hmem2 : m0 ∈ otherPart msgs := by simpa using hmem
    have hrole := List.of_mem_filter hmem2
    subst hm
    simpa using hrole

/-- C2 counterexample: with budget 10 and a single 50-character system turn,
`_trim_history_to_budget` keeps the system turn untouched, so the output's
total content size (50) exceeds the budget — even after allowing the
truncation-marker overhead — and no boundary-turn truncation is involved. -/
theorem c2_counterexample :
    trimHistory [⟨"system", aStr 50⟩] 10 = [⟨"system", aStr 50⟩]
    ∧ ¬((totalChars (trimHistory [⟨"system", aStr 50⟩] 10) : Int) ≤ 10 + truncMarker.length) := by
  constructor
  · decide
  · decide

/-- C2 (amended): for every positive budget such that the (6000-truncated)
system turns total strictly less than the budget, the budgeted output's
total size is at most the budget plus the truncation-marker length (the
single boundary turn may carry the marker); every system turn of the input
is present first (each at most 6000-truncated, never dropped), all other
output turns are non-system, and the surviving non-system turns are a
suffix of the input's non-system turns (oldest sacrificed first) — except
that the single boundary turn may survive only in truncated form. -/
theorem c2_prompt_budget_amended (msgs : List Msg) (budget : Int)
    (hb : 0 < budget) (hs : (totalChars (sysPart msgs) : Int) < budget) :
    (totalChars (trimHistory msgs budget) : Int) ≤ budget + truncMarker.length
    ∧ ∃ kept, trimHistory msgs budget = sysPart msgs ++ kept
        ∧ (∀ m ∈ kept, m.role ≠ "system")
        ∧ (kept <:+ otherPart msgs ∨
            ∃ m n, (otherPart msgs).getLast? = some m
              ∧ kept = [⟨m.role, limitText m.content n⟩]) := by
  have hu := trimHistory_unfold msgs budget hb hs
  constructor
  · rw [hu, totalChars_append]
    have h1 : (totalChars (keepRev (otherPart msgs).reverse
        (budget - (totalChars (sysPart msgs) : Int)) true) : Int)
        ≤ (budget - (totalChars (sysPart msgs) : Int)) + truncMarker.length :=
      keepRev_total_true _ _ (by omega)
    have h2 := totalChars_reverse (keepRev (otherPart msgs).reverse
        (budget - (totalChars (sysPart msgs) : Int)) true)
    push_cast
    omega
  · refine ⟨_, hu, ?_, ?_⟩
    · intro m hm
      exact kept_roles_nonsystem hm
    · rcases keepRev_shape_true (otherPart msgs).reverse
        (budget - (totalChars (sysPart msgs) : Int)) with ⟨k, hk⟩ | ⟨m0, rest0, n0, hl, hk⟩
      · left
        rw [hk]
        have h4 : ((otherPart msgs).reverse.take k).reverse.reverse <+: (otherPart msgs).reverse := by
          simpa using List.take_prefix k (otherPart msgs).reverse
        exact List.reverse_prefix.mp h4
      · right
        refine ⟨m0, n0, ?_, by rw [hk]; rfl⟩
        have h5 : (otherPart msgs).reverse.head? = some m0 := by rw [hl]; rfl
        rw [List.head?_reverse] at h5
        exact h5

/-- Witness for C2 (amended) at a concrete input: one system turn and one
user turn, budget 100. -/
theorem c2_prompt_budget_amended_witness :
    ((0 : Int) < 100 ∧ (totalChars (sysPart [⟨"system", "s"⟩, ⟨"user", "hello"⟩]) : Int) < 100)
    ∧ ((totalChars (trimHistory [⟨"system", "s"⟩, ⟨"user", "hello"⟩] 100) : Int)
          ≤ 100 + truncMarker.length
      ∧ ∃ kept, trimHistory [⟨"system", "s"⟩, ⟨"user", "hello"⟩] 100
            = sysPart [⟨"system", "s"⟩, ⟨"user", "hello"⟩] ++ kept
          ∧ (∀ m ∈ kept, m.role ≠ "system")
          ∧ (kept <:+ otherPart [⟨"system", "s"⟩, ⟨"user", "hello"⟩] ∨
              ∃ m n, (otherPart [⟨"system", "s"⟩, ⟨"user", "hello"⟩]).getLast? = some m
                ∧ kept = [⟨m.role, limitText m.content n⟩])) :=
  ⟨⟨by decide, by decide⟩,
    c2_prompt_budget_amended [⟨"system", "s"⟩, ⟨"user", "hello"⟩] 100 (by decide) (by decide)⟩

theorem keepRev_prepend (bs : List Msg) : ∀ (rest : List Msg) (r : Int) (b : Bool),
    (totalChars bs : Int) ≤ r →
    keepRev (bs ++ rest) r b = bs ++ keepRev rest (r - totalChars bs) (b && bs.isEmpty) := by
  induction bs with
  | nil =>
    intro rest r b h
    simp [totalChars]
  | cons m bs' ih =>
    intro rest r b h
    have hsum : (totalChars (m :: bs') : Int) = m.content.length + totalChars bs' := by
      simp [totalChars]
    have hfit : (m.content.length : Int) ≤ r := by
      have h0 : (0 : Int) ≤ totalChars bs' := by positivity
      omega
    rw [List.cons_append, keepRev, if_pos hfit]
    rw [ih rest (r - m.content.length) false (by omega)]
    have harith : r - (m.content.length : Int) - totalChars bs' = r - totalChars (m :: bs') := by
      omega
    rw [harith]
    simp

/-- C7 counterexample: a single 200-character user turn against budget 50:
nothing has been kept yet and the turn does not fit, yet the output is
empty — the boundary turn is dropped without any truncated, marker-bearing
copy, because the remaining budget (50) is not above 100. -/
theorem c7_counterexample :
    otherPart [⟨"user", aStr 200⟩] ≠ [] ∧ trimHistory [⟨"user", aStr 200⟩] 50 = [] := by
  constructor
  · decide
  · decide

/-- C7 (amended): decompose the non-system turns as `front ++ mid :: back`
where the most recent turns `back` fit the remaining budget in total and
`mid` does not fit what is left after them.  Then the output keeps exactly
the system turns, then `mid` truncated with the visible marker — but only
when nothing was kept yet (`back = []`) *and* more than 100 characters of
budget remain — and then `back`; `mid` is dropped otherwise, and all older
turns (`front`) are always dropped. -/
theorem c7_boundary_turn_amended (msgs : List Msg) (budget : Int)
    (front : List Msg) (mid : Msg) (back : List Msg)
    (hb : 0 < budget)
    (hdec : otherPart msgs = front ++ mid :: back)
    (hrem : 0 < budget - (totalChars (sysPart msgs) : Int))
    (hback : (totalChars back : Int) ≤ budget - (totalChars (sysPart msgs) : Int))
    (hmid : budget - (totalChars (sysPart msgs) : Int) - totalChars back
        < mid.content.length) :
    trimHistory msgs budget =
      sysPart msgs ++
        (if back = [] ∧ 100 < budget - (totalChars (sysPart msgs) : Int)
         then [⟨mid.role, limitText mid.content
                  (max 100 (budget - (totalChars (sysPart msgs) : Int))).toNat⟩]
         else [])
        ++ back := by
  have hs : (totalChars (sysPart msgs) : Int) < budget := by omega
  rw [trimHistory_unfold msgs budget hb hs]
  have hrev : (otherPart msgs).reverse = back.reverse ++ (mid :: front.reverse) := by
    rw [hdec]
    simp
  rw [hrev]
  have hbk : (totalChars back.reverse : Int)
      ≤ budget - (totalChars (sysPart msgs) : Int) := by
    rw [totalChars_reverse]
    exact hback
  rw [keepRev_prepend back.reverse (mid :: front.reverse) _ true hbk]
  rw [totalChars_reverse]
  by_cases hbe : back = []
  · subst hbe
    rw [keepRev]
    rw [if_neg (by
      simp only [totalChars, List.map_nil, List.sum_nil] at hmid ⊢
      push_cast at hmid ⊢
      omega)]
    clear hrev hbk hdec hback hmid
    split_ifs <;> (simp_all [totalChars]; try omega)
  · have hflag : back.reverse.isEmpty = false := by
      simp [List.isEmpty_iff, hbe]
    rw [hflag]
    simp only [Bool.and_false]
    rw [keepRev]
    rw [if_neg (by omega)]
    simp only [Bool.false_eq_true, if_false]
    rw [if_neg (by simp [hbe])]
    simp

/-- Witness for C7 (amended): a single 150-character user turn against
budget 120; nothing kept yet and over 100 budget remaining, so the turn
survives truncated with the marker. -/
theorem c7_boundary_turn_amended_witness :
    ((0 : Int) < 120
      ∧ otherPart [⟨"user", aStr 150⟩] = [] ++ ⟨"user", aStr 150⟩ :: []
      ∧ 0 < 120 - (totalChars (sysPart [⟨"user", aStr 150⟩]) : Int)
      ∧ (totalChars ([] : List Msg) : Int)
          ≤ 120 - (totalChars (sysPart [⟨"user", aStr 150⟩]) : Int)
      ∧ 120 - (totalChars (sysPart [⟨"user", aStr 150⟩]) : Int)
          - (totalChars ([] : List Msg) : Int) < (Msg.mk "user" (aStr 150)).content.length)
    ∧ trimHistory [⟨"user", aStr 150⟩] 120 =
        sysPart [⟨"user", aStr 150⟩] ++
          (if ([] : List Msg) = []
              ∧ 100 < 120 - (totalChars (sysPart [⟨"user", aStr 150⟩]) : Int)
           then [⟨(Msg.mk "user" (aStr 150)).role,
                    limitText (Msg.mk "user" (aStr 150)).content
                      (max 100 (120 - (totalChars (sysPart [⟨"user", aStr 150⟩]) : Int))).toNat⟩]
           else [])
          ++ [] :=
  ⟨⟨by decide, by decide, by decide, by decide, by decide⟩,
    c7_boundary_turn_amended [⟨"user", aStr 150⟩] 120 [] (Msg.mk "user" (aStr 150)) []
      (by decide) (by decide) (by decide) (by decide) (by decide)⟩

/-- C4: every usage summary computed by the `/api/usage` endpoint reports
`remaining = max(0, cap - used)` for the cap and used values it reports, so
remaining is never negative even when used exceeds cap. -/
theorem c4_usage_remaining (storePlan : Option String)
    (r1 r2 ru : Except Unit (Option Int)) (dt : Date) :
    (usageSummary storePlan r1 r2 ru dt).remaining
        = max 0 ((usageSummary storePlan r1 r2 ru dt).cap
            - (usageSummary storePlan r1 r2 ru dt).used)
    ∧ 0 ≤ (usageSummary storePlan r1 r2 ru dt).remaining := by
  exact ⟨rfl, le_max_left 0 _⟩

theorem pad2_length (n : Nat) (h : n ≤ 99) : (pad2 n).length = 2 := by
  revert h
  revert n
  decide

theorem isoYearWeek_week_bounds (y m d : Nat) :
    1 ≤ (isoYearWeek y m d).2 ∧ (isoYearWeek y m d).2 ≤ 53 := by
  unfold isoYearWeek weeksInIsoYear
  dsimp only
  split_ifs <;> simp_all <;> omega

theorem isoYearWeek_year_cases (y m d : Nat) (hy : 1 ≤ y) :
    (isoYearWeek y m d).1 + 1 = y ∨ (isoYearWeek y m d).1 = y
      ∨ (isoYearWeek y m d).1 = y + 1 := by
  unfold isoYearWeek
  dsimp only
  split_ifs <;> (simp; try omega)

/-- C6: the period key used for quota accounting is the ISO-week string
(`<iso-year>-Www`, week two-digit, 1-53) for the Free plan and the calendar
month string (`<year>-MM`) for the Pro plan, both derived from the current
UTC date; the usage summary's reported period is exactly this dispatch. -/
theorem c6_period_key (storePlan : Option String)
    (r1 r2 ru : Except Unit (Option Int)) (dt : Date)
    (hy : 1 ≤ dt.year) (hm : dt.month ≤ 12) :
    (usageSummary storePlan r1 r2 ru dt).month = periodFor (getUserPlan storePlan) dt
    ∧ periodFor "free" dt = isoWeekKey dt
    ∧ periodFor "pro" dt = monthKey dt
    ∧ monthKey dt = Nat.repr dt.year ++ "-" ++ pad2 dt.month
    ∧ (pad2 dt.month).length = 2
    ∧ (∃ iy w, isoWeekKey dt = Nat.repr iy ++ "-W" ++ pad2 w
        ∧ 1 ≤ w ∧ w ≤ 53 ∧ (pad2 w).length = 2
        ∧ (iy + 1 = dt.year ∨ iy = dt.year ∨ iy = dt.year + 1)) := by
  refine ⟨rfl, by simp [periodFor], by simp [periodFor], rfl, pad2_length dt.month (by omega), ?_⟩
  refine ⟨(isoYearWeek dt.year dt.month dt.day).1, (isoYearWeek dt.year dt.month dt.day).2,
    rfl, ?_, ?_, ?_, ?_⟩
  · exact (isoYearWeek_week_bounds dt.year dt.month dt.day).1
  · exact (isoYearWeek_week_bounds dt.year dt.month dt.day).2
  · exact pad2_length _ (by have := (isoYearWeek_week_bounds dt.year dt.month dt.day).2; omega)
  · exact isoYearWeek_year_cases dt.year dt.month dt.day hy

/-- Witness for C6 at the concrete date 2026-10-12 and a stored Free plan. -/
theorem c6_period_key_witness :
    (1 ≤ (Date.mk 2026 10 12).year ∧ (Date.mk 2026 10 12).month ≤ 12)
    ∧ ((usageSummary (some "free") (.ok none) (.ok none) (.ok none) ⟨2026, 10, 12⟩).month
          = periodFor (getUserPlan (some "free")) ⟨2026, 10, 12⟩
      ∧ periodFor "free" ⟨2026, 10, 12⟩ = isoWeekKey ⟨2026, 10, 12⟩
      ∧ periodFor "pro" ⟨2026, 10, 12⟩ = monthKey ⟨2026, 10, 12⟩
      ∧ monthKey ⟨2026, 10, 12⟩
          = Nat.repr (Date.mk 2026 10 12).year ++ "-" ++ pad2 (Date.mk 2026 10 12).month
      ∧ (pad2 (Date.mk 2026 10 12).month).length = 2
      ∧ (∃ iy w, isoWeekKey ⟨2026, 10, 12⟩ = Nat.repr iy ++ "-W" ++ pad2 w
          ∧ 1 ≤ w ∧ w ≤ 53 ∧ (pad2 w).length = 2
          ∧ (iy + 1 = (Date.mk 2026 10 12).year ∨ iy = (Date.mk 2026 10 12).year
              ∨ iy = (Date.mk 2026 10 12).year + 1))) :=
  ⟨⟨by decide, by decide⟩,
    c6_period_key (some "free") (.ok none) (.ok none) (.ok none) ⟨2026, 10, 12⟩
      (by decide) (by decide)⟩

/-- C1: for an authenticated chat or transcription request whose used tokens
have reached the cap at check time, the handler refuses with the 402
quota-exceeded payload carrying the period and the plan, and performs no
effect at all — in particular no completion-provider call. -/
theorem c1_quota_refusal (e : ChatEnv) (t : TransEnv) (u : String) (em : Option String)
    (v : String) (em2 : Option String)
    (ha : checkAuth e.authHeader e.authLookup = .ok u em)
    (hq : chatCap e ≤ chatUsed e)
    (hat : checkAuth t.authHeader t.authLookup = .ok v em2)
    (hqt : transCap t ≤ transUsed t) :
    chat e = (.quotaExceeded (quotaDetail (chatCap e) (periodFor (chatPlan e) e.now))
        (periodFor (chatPlan e) e.now) (chatPlan e), [])
    ∧ transcribe t = (.quotaExceeded (quotaDetail (transCap t) (periodFor (transPlan t) t.now))
        (periodFor (transPlan t) t.now) (transPlan t), []) := by
  constructor
  · have hq2 : getTokenCap (getUserPlan e.storePlan) e.capRpc1 e.capRpc2
        ≤ getTokensUsed e.usedRpc := hq
    simp only [chat, ha]
    simp only [chatAuthed]
    rw [if_pos hq2]
    simp only [chatPlan, chatCap, chatUsed]
  · have hq2 : getTokenCap (getUserPlan t.storePlan) t.capRpc1 t.capRpc2
        ≤ getTokensUsed t.usedRpc := hqt
    simp only [transcribe, hat]
    simp only [transcribeAuthed]
    rw [if_pos hq2]
    simp only [transPlan, transCap, transUsed]

/-- Witness for C1: concrete chat and transcription environments with the
weekly counter at or beyond the cap of 100. -/
theorem c1_quota_refusal_witness :
    (checkAuth quotaChatEnv.authHeader quotaChatEnv.authLookup = .ok "u1" none
      ∧ chatCap quotaChatEnv ≤ chatUsed quotaChatEnv
      ∧ checkAuth quotaTransEnv.authHeader quotaTransEnv.authLookup = .ok "u1" none
      ∧ transCap quotaTransEnv ≤ transUsed quotaTransEnv)
    ∧ (chat quotaChatEnv
        = (.quotaExceeded
            (quotaDetail (chatCap quotaChatEnv) (periodFor (chatPlan quotaChatEnv) quotaChatEnv.now))
            (periodFor (chatPlan quotaChatEnv) quotaChatEnv.now) (chatPlan quotaChatEnv), [])
      ∧ transcribe quotaTransEnv
        = (.quotaExceeded
            (quotaDetail (transCap quotaTransEnv) (periodFor (transPlan quotaTransEnv) quotaTransEnv.now))
            (periodFor (transPlan quotaTransEnv) quotaTransEnv.now) (transPlan quotaTransEnv), [])) :=
  ⟨⟨by decide, by decide, by decide, by decide⟩,
    c1_quota_refusal quotaChatEnv quotaTransEnv "u1" none "u1" none
      (by decide) (by decide) (by decide) (by decide)⟩

/-- C5: the outcome of the best-effort quota-consume write never changes the
result of a chat turn: the full response (in particular the reply text) and
the effect trace are identical whether the ledger write succeeds or fails —
the failure is swallowed inside `_add_tokens_used`, never surfaced. -/
theorem c5_consume_failure_harmless (e : ChatEnv) (b1 b2 : Bool) :
    chat { e with consumeWriteOk := b1 } = chat { e with consumeWriteOk := b2 } := by
  cases b1 <;> cases b2 <;> rfl

/-- C10: when the completion API key is not configured, an authenticated,
quota-passing chat request (within the payload guardrails) returns the
HTTP-200 success payload whose reply is the human-readable missing-key
message — not a typed error — with no provider call and no quota consumed
(the effect trace is empty). -/
theorem c10_missing_key (e : ChatEnv) (u : String) (em : Option String) (h1 : List Msg)
    (ha : checkAuth e.authHeader e.authLookup = .ok u em)
    (hq : chatUsed e < chatCap e)
    (hraw : e.messagesRaw.length ≤ e.maxRawChars)
    (hf : filesStep e (chatHistory0 e) = .ok h1)
    (hk : e.apiKeyEnv.getD "" = "") :
    chat e = (.ok missingKeyReply none none, [])
    ∧ respStatus (chat e).1 = 200 := by
  have hmain : chat e = (.ok missingKeyReply none none, []) := by
    simp only [chat, ha]
    simp only [chatAuthed]
    rw [if_neg (by simp only [chatCap, chatUsed, chatPlan] at hq; omega)]
    rw [if_neg (by omega)]
    rw [hf]
    simp only []
    rw [if_pos hk]
  exact ⟨hmain, by rw [hmain]; rfl⟩


/-- Witness for C10: `baseChatEnv` with no API key configured. -/
theorem c10_missing_key_witness :
    (checkAuth c10ChatEnv.authHeader c10ChatEnv.authLookup = .ok "u1" none
      ∧ chatUsed c10ChatEnv < chatCap c10ChatEnv
      ∧ c10ChatEnv.messagesRaw.length ≤ c10ChatEnv.maxRawChars
      ∧ filesStep c10ChatEnv (chatHistory0 c10ChatEnv) = .ok [⟨"user", "ab"⟩]
      ∧ c10ChatEnv.apiKeyEnv.getD "" = "")
    ∧ (chat c10ChatEnv = (.ok missingKeyReply none none, [])
      ∧ respStatus (chat c10ChatEnv).1 = 200) :=
  ⟨⟨by decide, by decide, by decide, by rfl, by decide⟩,
    c10_missing_key c10ChatEnv "u1" none [⟨"user", "ab"⟩]
      (by decide) (by decide) (by decide) (by rfl) (by decide)⟩

theorem ensureConversation_events (e : ChatEnv) (uid : String) :
    ∀ ev ∈ (ensureConversation e uid).2.2, ∃ ti, ev = Event.insertConversation ti := by
  intro ev hev
  unfold ensureConversation at hev
  split at hev
  · simp at hev
  · split at hev
    · split at hev
      · simp at hev
      · simp at hev
      · split at hev
        · simp at hev
        · simp at hev
    · split at hev <;> (simp at hev; exact ⟨_, hev⟩)

/-- C9: when persistence is requested with an existing conversation id whose
row belongs to a different user, the ownership check yields no conversation
instead of an error: the turn completes with the provider's reply, the
effect trace holds only the provider call and the token consume — no
message or conversation rows are written — and the response carries no
conversation id. -/
theorem c9_foreign_conversation (e : ChatEnv) (u : String) (em : Option String)
    (h1 : List Msg) (reply : String) (usage : Option Int) (row : ConvRow)
    (ha : checkAuth e.authHeader e.authLookup = .ok u em)
    (hq : chatUsed e < chatCap e)
    (hraw : e.messagesRaw.length ≤ e.maxRawChars)
    (hf : filesStep e (chatHistory0 e) = .ok h1)
    (hk : e.apiKeyEnv.getD "" ≠ "")
    (hp : e.providerResult = .ok (reply, usage))
    (hpersist : asBool e.persist = true)
    (hcid : e.conversationId.getD "" ≠ "")
    (hrow : e.convLookup = .ok (some row))
    (hmm : row.userId ≠ u) :
    chat e = (.ok reply none none,
      [.providerCall e.modelName (chatMessages e h1),
        .consume (chatCost (chatMessages e h1) reply usage)]) := by
  have hec : ensureConversation e u = (none, none, []) := by
    unfold ensureConversation
    rw [if_neg (by simp [hpersist])]
    rw [if_pos hcid]
    rw [hrow]
    simp only []
    rw [if_neg hmm]
  simp only [chat, ha]
  simp only [chatAuthed]
  rw [if_neg (by simp only [chatCap, chatUsed, chatPlan] at hq; omega)]
  rw [if_neg (by omega)]
  rw [hf]
  simp only []
  rw [if_neg hk]
  rw [hp]
  simp only [chatAfterProvider, hec]
  simp [hpersist]

/-- Witness for C9: persistence requested for conversation `c77`, whose row
belongs to `otherUser`, not to the authenticated `u1`. -/
theorem c9_foreign_conversation_witness :
    (checkAuth c9ChatEnv.authHeader c9ChatEnv.authLookup = .ok "u1" none
      ∧ chatUsed c9ChatEnv < chatCap c9ChatEnv
      ∧ c9ChatEnv.messagesRaw.length ≤ c9ChatEnv.maxRawChars
      ∧ filesStep c9ChatEnv (chatHistory0 c9ChatEnv) = .ok [⟨"user", "ab"⟩]
      ∧ c9ChatEnv.apiKeyEnv.getD "" ≠ ""
      ∧ c9ChatEnv.providerResult = .ok ("abc", some 50)
      ∧ asBool c9ChatEnv.persist = true
      ∧ c9ChatEnv.conversationId.getD "" ≠ ""
      ∧ c9ChatEnv.convLookup = .ok (some ⟨"c77", "otherUser"⟩)
      ∧ (ConvRow.mk "c77" "otherUser").userId ≠ "u1")
    ∧ chat c9ChatEnv = (.ok "abc" none none,
        [.providerCall c9ChatEnv.modelName (chatMessages c9ChatEnv [⟨"user", "ab"⟩]),
          .consume (chatCost (chatMessages c9ChatEnv [⟨"user", "ab"⟩]) "abc" (some 50))]) :=
  ⟨⟨by decide, by decide, by decide, by rfl, by decide, by rfl, by decide, by decide,
      by rfl, by decide⟩,
    c9_foreign_conversation c9ChatEnv "u1" none [⟨"user", "ab"⟩] "abc" (some 50)
      ⟨"c77", "otherUser"⟩ (by decide) (by decide) (by decide) (by rfl) (by decide)
      (by rfl) (by decide) (by decide) (by rfl) (by decide)⟩

/-- C3 counterexample: on a turn whose submitted messages plus reply total 6
characters and whose provider reports no usage, the code consumes
`max(1, int(6 / 4)) = 1` token, while the claim's formula
`max(1, round(6 / 4)) = max(1, round(1.5)) = 2` (Python half-to-even
rounding) predicts 2: the consumed cost is the floor, not the rounding. -/
theorem c3_counterexample :
    (chat baseChatEnv).2 = [.providerCall "m" [⟨"system", "x"⟩, ⟨"user", "ab"⟩], .consume 1]
    ∧ chatMessages baseChatEnv [⟨"user", "ab"⟩] = [⟨"system", "x"⟩, ⟨"user", "ab"⟩]
    ∧ totalChars [⟨"system", "x"⟩, ⟨"user", "ab"⟩] + ("abc" : String).length = 6
    ∧ specRoundCost 6 = 2
    ∧ ¬(Event.consume (specRoundCost 6) ∈ (chat baseChatEnv).2) :=
  ⟨by decide, by decide, by decide, by decide, by decide⟩

/-- C3 (amended): for an authenticated chat turn that passes the quota gate
and the guardrails and whose provider call succeeds, the effect trace is the
provider call, then only persistence inserts, then exactly one consume whose
value is the provider-reported usage when present and otherwise
`max(1, floor(character_count / 4))` over the submitted messages plus the
reply — consumption happens only after the provider call. -/
theorem c3_token_cost_amended (e : ChatEnv) (u : String) (em : Option String)
    (h1 : List Msg) (reply : String) (usage : Option Int)
    (ha : checkAuth e.authHeader e.authLookup = .ok u em)
    (hq : chatUsed e < chatCap e)
    (hraw : e.messagesRaw.length ≤ e.maxRawChars)
    (hf : filesStep e (chatHistory0 e) = .ok h1)
    (hk : e.apiKeyEnv.getD "" ≠ "")
    (hp : e.providerResult = .ok (reply, usage)) :
    ∃ mid, (chat e).2 = .providerCall e.modelName (chatMessages e h1) :: mid
        ++ [.consume (match usage with
            | some uu => uu
            | none => max 1 (((totalChars (chatMessages e h1) + reply.length) / 4 : Nat) : Int))]
      ∧ ∀ ev ∈ mid, (∃ ti, ev = Event.insertConversation ti)
          ∨ ∃ r c, ev = Event.insertMessage r c := by
  have hred : chat e = chatAfterProvider e u h1 reply usage := by
    simp only [chat, ha]
    simp only [chatAuthed]
    rw [if_neg (by simp only [chatCap, chatUsed, chatPlan] at hq; omega)]
    rw [if_neg (by omega)]
    rw [hf]
    simp only []
    rw [if_neg hk]
    rw [hp]
  rw [hred]
  simp only [chatAfterProvider]
  refine ⟨(ensureConversation e u).2.2 ++
      (if asBool e.persist ∧ (ensureConversation e u).1.isSome then
        ((if lastUserMessage (chatHistory2 e h1) = "" then []
          else [Event.insertMessage "user" (lastUserMessage (chatHistory2 e h1))])
          ++ [Event.insertMessage "assistant" reply])
      else []), ?_, ?_⟩
  · cases usage <;> simp [chatCost, List.append_assoc]
  · intro ev hev
    rcases List.mem_append.mp hev with h | h
    · exact .inl (ensureConversation_events e u ev h)
    · right
      split at h
      · rcases List.mem_append.mp h with h2 | h2
        · split at h2
          · simp at h2
          · simp at h2
            exact ⟨_, _, h2⟩
        · simp at h2
          exact ⟨_, _, h2⟩
      · simp at h

/-- Witness for C3 (amended): `baseChatEnv` with a provider-reported usage
of 50 tokens. -/
theorem c3_token_cost_amended_witness :
    (checkAuth c3ChatEnv.authHeader c3ChatEnv.authLookup = .ok "u1" none
      ∧ chatUsed c3ChatEnv < chatCap c3ChatEnv
      ∧ c3ChatEnv.messagesRaw.length ≤ c3ChatEnv.maxRawChars
      ∧ filesStep c3ChatEnv (chatHistory0 c3ChatEnv) = .ok [⟨"user", "ab"⟩]
      ∧ c3ChatEnv.apiKeyEnv.getD "" ≠ ""
      ∧ c3ChatEnv.providerResult = .ok ("abc", some 50))
    ∧ (∃ mid, (chat c3ChatEnv).2
          = .providerCall c3ChatEnv.modelName (chatMessages c3ChatEnv [⟨"user", "ab"⟩]) :: mid
            ++ [.consume (match (some 50 : Option Int) with
                | some uu => uu
                | none => max 1 (((totalChars (chatMessages c3ChatEnv [⟨"user", "ab"⟩])
                    + ("abc" : String).length) / 4 : Nat) : Int))]
        ∧ ∀ ev ∈ mid, (∃ ti, ev = Event.insertConversation ti)
            ∨ ∃ r c, ev = Event.insertMessage r c) :=
  ⟨⟨by decide, by decide, by decide, by rfl, by decide, by rfl⟩,
    c3_token_cost_amended c3ChatEnv "u1" none [⟨"user", "ab"⟩] "abc" (some 50)
      (by decide) (by decide) (by decide) (by rfl) (by decide) (by rfl)⟩

theorem userTurn_nonblank (raw : String) (hraw : pyStrip raw ≠ "") :
    contentNonBlankJ (userTurnJ raw) = true := by
  unfold contentNonBlankJ userTurnJ objGet
  simp [jGet, pyStr, hraw]

theorem chatHistoryJ_fallback_case (parsed : Option Json) (raw : String)
    (hraw : pyStrip raw ≠ "")
    (hnorm : normalizeHistoryJ parsed raw = [userTurnJ raw]) :
    chatHistoryJ parsed raw = [userTurnJ raw] := by
  unfold chatHistoryJ
  rw [hnorm]
  rw [if_pos (by simp [userTurn_nonblank raw hraw])]

/-- C8 counterexample: the raw string `[{"role": "user", "content": "hi"},
42]` does not parse as an ordered sequence of role/content records (the
element `42` is not a record), and the raw input is non-blank; yet the
pipeline keeps only the parsed record turn and drops `42` silently — no
submitted turn carries the raw text as a single user turn. -/
theorem c8_counterexample :
    specParsesAsRecords c8parsed = false
    ∧ pyStrip c8raw ≠ ""
    ∧ chatHistoryJ c8parsed c8raw = [.obj [("role", .str "user"), ("content", .str "hi")]]
    ∧ (chatHistoryJ c8parsed c8raw).any (hasRawContent c8raw) = false :=
  ⟨rfl, by decide, rfl, rfl⟩

/-- C8 (amended): whenever the raw history string fails to parse as JSON,
parses to a non-list value, or parses to a list none of whose dict elements
has non-blank content, the chat pipeline submits exactly one user turn
holding the raw text (or its stripped form): non-blank raw input is never
dropped in these cases.  (When the list holds at least one dict with
non-blank content, the parsed dicts are kept instead and any non-dict
elements are discarded.) -/
theorem c8_raw_fallback_amended (parsed : Option Json) (raw : String)
    (hraw : pyStrip raw ≠ "") (hfb : fallbackInput parsed = true) :
    chatHistoryJ parsed raw = [userTurnJ raw]
      ∨ chatHistoryJ parsed raw = [userTurnJ (pyStrip raw)] := by
  cases parsed with
  | none =>
    exact .inl (chatHistoryJ_fallback_case none raw hraw
      (by unfold normalizeHistoryJ; rw [if_neg hraw]))
  | some j =>
    cases j with
    | arr xs =>
      right
      unfold chatHistoryJ
      simp only [normalizeHistoryJ]
      have hany : (xs.filter isObjJ).any contentNonBlankJ = false := by
        simp only [fallbackInput] at hfb
        rw [List.any_eq_false]
        intro x hx
        have h2 := List.all_eq_true.mp hfb x hx
        simpa using h2
      rw [if_neg (by simp [hany])]
      rw [if_neg hraw]
    | null =>
      exact .inl (chatHistoryJ_fallback_case _ raw hraw
        (by unfold normalizeHistoryJ; rw [if_neg hraw]))
    | bool b =>
      exact .inl (chatHistoryJ_fallback_case _ raw hraw
        (by unfold normalizeHistoryJ; rw [if_neg hraw]))
    | num n =>
      exact .inl (chatHistoryJ_fallback_case _ raw hraw
        (by unfold normalizeHistoryJ; rw [if_neg hraw]))
    | str s =>
      exact .inl (chatHistoryJ_fallback_case _ raw hraw
        (by unfold normalizeHistoryJ; rw [if_neg hraw]))
    | obj kvs =>
      exact .inl (chatHistoryJ_fallback_case _ raw hraw
        (by unfold normalizeHistoryJ; rw [if_neg hraw]))

/-- Witness for C8 (amended): a raw string that fails JSON parsing. -/
theorem c8_raw_fallback_amended_witness :
    (pyStrip "hello" ≠ "" ∧ fallbackInput none = true)
    ∧ (chatHistoryJ none "hello" = [userTurnJ "hello"]
        ∨ chatHistoryJ none "hello" = [userTurnJ (pyStrip "hello")]) :=
  ⟨⟨by decide, rfl⟩, c8_raw_fallback_amended none "hello" (by decide) rfl⟩
